import Mathlib

/-!
Shallow embedding of the toda passthrough filesystem driver
(`src/hookfs/mod.rs` and `src/fuse_device.rs`).

The Rust handlers are stateful methods on `HookFs` that call native syscalls
and send exactly one reply.  Here each handler becomes a pure function taking
the `HookFs` state and an oracle for the native layer (a `stat` oracle, an
`open` oracle, or a map from file descriptor to file content), and returning
the new state together with the reply.  A Rust panic (an unchecked index into
`inode_map` or `opened_files`) is modelled as `Option.none`; every defined
reply is `Option.some`.
-/

set_option linter.unusedVariables false

namespace Toda

/-- A native path, as the list of its components (`PathBuf` push = append). -/
abbrev Path := List String

/-- `nix::Error::as_errno()`: a recognizable POSIX errno, or nothing. -/
abbrev NixErrno := Option Nat

/-- The error translation every handler performs:
`err.as_errno().map(|errno| errno as i32).unwrap_or(-1)`. -/
def errnoToInt : NixErrno → Int
  | some e => (e : Int)
  | none => -1

/-- `time::Timespec` (seconds `i64`, nanoseconds `i32`). -/
structure Timespec where
  sec : Int
  nsec : Int
deriving DecidableEq, Repr

/-- `Timespec::new`. -/
def Timespec.new (s ns : Int) : Timespec := ⟨s, ns⟩

def tsZero : Timespec := ⟨0, 0⟩

/-- Rust `as u64` on an `i64`: two's-complement reinterpretation. -/
def u64ofI64 (n : Int) : Nat := (n.emod (2 ^ 64)).toNat

/-- Rust `as i32` on an `i64`: truncation to 32 bits, signed. -/
def i32ofI64 (n : Int) : Int := (n + 2 ^ 31).emod (2 ^ 32) - 2 ^ 31

/-- Rust `as u32` on a `u64`: truncation to 32 bits. -/
def u32ofU64 (n : Nat) : Nat := n % 2 ^ 32

/-- Rust `as u16` on a `u32`: truncation to 16 bits. -/
def u16ofU32 (n : Nat) : Nat := n % 2 ^ 16

/- libc constants (Linux values, as used by the crate). -/

def S_IFMT : Nat := 0o170000
def S_IFBLK : Nat := 0o060000
def S_IFCHR : Nat := 0o020000
def S_IFDIR : Nat := 0o040000
def S_IFIFO : Nat := 0o010000
def S_IFLNK : Nat := 0o120000
def S_IFREG : Nat := 0o100000
def S_IFSOCK : Nat := 0o140000

def O_APPEND : Nat := 0o2000

def ENOSYS : Int := 38
def ENOENT : Nat := 2
def EEXIST : Nat := 17
def EINVAL : Nat := 22

/-- The fields of `libc::stat` read by the driver. -/
structure LibcStat where
  st_ino : Nat
  st_size : Int
  st_blocks : Int
  st_atime : Int
  st_atime_nsec : Int
  st_mtime : Int
  st_mtime_nsec : Int
  st_ctime : Int
  st_ctime_nsec : Int
  st_mode : Nat
  st_nlink : Nat
  st_uid : Nat
  st_gid : Nat
  st_rdev : Nat
deriving DecidableEq, Repr

/-- `fuse::FileType`. -/
inductive FileType where
  | NamedPipe
  | CharDevice
  | BlockDevice
  | Directory
  | RegularFile
  | Symlink
  | Socket
deriving DecidableEq, Repr

/-- `fuse::FileAttr`. -/
structure FileAttr where
  ino : Nat
  size : Nat
  blocks : Nat
  atime : Timespec
  mtime : Timespec
  ctime : Timespec
  kind : FileType
  perm : Nat
  nlink : Nat
  uid : Nat
  gid : Nat
  rdev : Nat
  crtime : Timespec
  flags : Nat
deriving DecidableEq, Repr

/-- The `match stat.st_mode & libc::S_IFMT` arm of the translator. -/
def fileTypeOfMode (mode : Nat) : Option FileType :=
  let m := mode &&& S_IFMT
  if m = S_IFBLK then some FileType.BlockDevice
  else if m = S_IFCHR then some FileType.CharDevice
  else if m = S_IFDIR then some FileType.Directory
  else if m = S_IFIFO then some FileType.NamedPipe
  else if m = S_IFLNK then some FileType.Symlink
  else if m = S_IFREG then some FileType.RegularFile
  else if m = S_IFSOCK then some FileType.Socket
  else none

/-- `convert_libc_stat_to_fuse_stat` (mod.rs:39).  Note the permission mask:
the Rust source writes `stat.st_mode & 0777`, and in Rust a leading-zero
literal is decimal, so the mask is the decimal number 777, not octal `0o777`. -/
def convert_libc_stat_to_fuse_stat (st : LibcStat) : Option FileAttr :=
  match fileTypeOfMode st.st_mode with
  | none => none
  | some kind =>
    some {
      ino := st.st_ino
      size := u64ofI64 st.st_size
      blocks := u64ofI64 st.st_blocks
      atime := Timespec.new st.st_atime (i32ofI64 st.st_atime_nsec)
      mtime := Timespec.new st.st_mtime (i32ofI64 st.st_mtime_nsec)
      ctime := Timespec.new st.st_ctime (i32ofI64 st.st_ctime_nsec)
      kind := kind
      perm := u16ofU32 (st.st_mode &&& 777)
      nlink := u32ofU64 st.st_nlink
      uid := st.st_uid
      gid := st.st_gid
      rdev := u32ofU64 st.st_rdev
      crtime := Timespec.new 0 0
      flags := 0 }

/-- The filesystem instance (`struct HookFs`).  `inode_map` is a
`HashMap<u64, PathBuf>`, modelled as an association list where the most
recent insertion comes first; `opened_files` is the `Vec<Box<RawFd>>`. -/
structure HookFs where
  mount_path : Path
  original_path : Path
  opened_files : List Int
  inode_map : List (Nat × Path)
deriving DecidableEq, Repr

/-- `HookFs::new`. -/
def HookFs.new (mount_path original_path : Path) : HookFs :=
  { mount_path := mount_path
    original_path := original_path
    opened_files := []
    inode_map := [] }

/-- `HashMap::get` on the association-list model. -/
def lookupAssoc (m : List (Nat × Path)) (k : Nat) : Option Path :=
  (m.find? (fun p => p.1 == k)).map (fun p => p.2)

/-- `HashMap::insert` on the association-list model (the new binding
shadows any older one). -/
def insertAssoc (m : List (Nat × Path)) (k : Nat) (v : Path) : List (Nat × Path) :=
  (k, v) :: m

/-- A generic FUSE reply: exactly one of a success payload or an errno. -/
inductive FsReply (α : Type) where
  | ok (v : α)
  | error (errno : Int)
deriving DecidableEq, Repr

/-- `ReplyEntry` payload: ttl, attributes, generation. -/
abbrev EntryOut := Timespec × FileAttr × Nat

/-- `ReplyAttr` payload: ttl, attributes. -/
abbrev AttrOut := Timespec × FileAttr

/-- `ReplyOpen` payload: file handle, flags. -/
abbrev OpenOut := Nat × Nat

/-- `Filesystem::lookup` (mod.rs:79).  The stat oracle stands for
`nix::sys::stat::stat`; `time` is the value of `get_time()`. -/
def lookupImpl (fs : HookFs) (statOracle : Path → Except NixErrno LibcStat)
    (time : Timespec) (parent : Nat) (name : String) : HookFs × FsReply EntryOut :=
  let source_mount := fs.original_path ++ [name]
  match statOracle source_mount with
  | Except.ok st =>
    match convert_libc_stat_to_fuse_stat st with
    | some attr =>
      ({ fs with inode_map := insertAssoc fs.inode_map attr.ino source_mount },
        FsReply.ok (time, attr, 0))
    | none => (fs, FsReply.error (-1))
  | Except.error err => (fs, FsReply.error (errnoToInt err))

/-- `Filesystem::getattr` (mod.rs:119).  The source indexes
`self.inode_map[&ino]` without checking membership; a missing inode is a
Rust panic, modelled as `none`. -/
def getattrImpl (fs : HookFs) (statOracle : Path → Except NixErrno LibcStat)
    (time : Timespec) (ino : Nat) : Option (HookFs × FsReply AttrOut) :=
  match lookupAssoc fs.inode_map ino with
  | none => none
  | some path =>
    match statOracle path with
    | Except.ok st =>
      match convert_libc_stat_to_fuse_stat st with
      | some attr => some (fs, FsReply.ok (time, attr))
      | none => some (fs, FsReply.error (-1))
    | Except.error err => some (fs, FsReply.error (errnoToInt err))

def u32mask : Nat := 2 ^ 32 - 1

/-- The flag sanitisation of `Filesystem::open` (mod.rs:252):
`flags & (!(libc::O_APPEND as u32)) & (!0x8000)`. -/
def filterFlags (flags : Nat) : Nat :=
  flags &&& (u32mask ^^^ O_APPEND) &&& (u32mask ^^^ 0x8000)

/-- `Filesystem::open` (mod.rs:249).  `validOFlag` stands for
`OFlag::from_bits` succeeding on the filtered flags; `openOracle` stands for
`nix::fcntl::open` with `Mode::all()`, returning a raw fd. -/
def openImpl (fs : HookFs) (validOFlag : Nat → Bool)
    (openOracle : Path → Nat → Except NixErrno Int)
    (ino : Nat) (flags : Nat) : HookFs × FsReply OpenOut :=
  let filtered := filterFlags flags
  if validOFlag filtered then
    match lookupAssoc fs.inode_map ino with
    | some path =>
      match openOracle path filtered with
      | Except.ok fd =>
        let files := fs.opened_files ++ [fd]
        ({ fs with opened_files := files }, FsReply.ok (files.length - 1, flags))
      | Except.error err => (fs, FsReply.error (errnoToInt err))
    | none => (fs, FsReply.error (-1))
  else (fs, FsReply.error (-1))

/-- `Filesystem::read` (mod.rs:285).  The source indexes
`self.opened_files[fh as usize]` unchecked: an out-of-range handle is a Rust
panic, modelled as `none`.  `content` maps each raw fd to the bytes of its
file; `lseek(fd, offset, SeekSet)` fails with EINVAL on a negative offset and
otherwise sets the position, and `read(fd, &mut buf)` then fills the first
`n` bytes of `buf`, where `n` is the number of bytes available at that
position, capped by `buf.len()`.  The source ignores the returned count and
replies with the entire zero-initialised buffer `buf` of length `size`. -/
def readImpl (fs : HookFs) (content : Int → List Nat) (ino : Nat) (fh : Nat)
    (offset : Int) (size : Nat) : Option (HookFs × FsReply (List Nat)) :=
  match fs.opened_files.get? fh with
  | none => none
  | some fd =>
    if offset < 0 then some (fs, FsReply.error (Int.ofNat EINVAL))
    else
      let file := content fd
      let readBytes := (file.drop offset.toNat).take size
      let buf := readBytes ++ List.replicate (size - readBytes.length) 0
      some (fs, FsReply.ok buf)

/-- `Filesystem::release` (mod.rs:339): unconditionally `reply.ok()`. -/
def releaseImpl (fs : HookFs) (ino : Nat) (fh : Nat) (flags : Nat)
    (lock_owner : Nat) (flush : Bool) : HookFs × FsReply Unit :=
  (fs, FsReply.ok ())

/-- `Filesystem::opendir` (mod.rs:365): `reply.opened(0, 0)`. -/
def opendirImpl (fs : HookFs) (ino : Nat) (flags : Nat) : HookFs × FsReply OpenOut :=
  (fs, FsReply.ok (0, 0))

/-- `Filesystem::releasedir` (mod.rs:389): `reply.ok()`. -/
def releasedirImpl (fs : HookFs) (ino : Nat) (fh : Nat) (flags : Nat) :
    HookFs × FsReply Unit :=
  (fs, FsReply.ok ())

/-- `Filesystem::statfs` (mod.rs:413): fixed reply. -/
def statfsImpl (fs : HookFs) (ino : Nat) :
    HookFs × FsReply (Nat × Nat × Nat × Nat × Nat × Nat × Nat × Nat) :=
  (fs, FsReply.ok (0, 0, 0, 0, 0, 512, 255, 0))

/- The deliberately unimplemented handlers (mod.rs:145-521): each replies
`error(ENOSYS)` and touches no state. -/

def setattrImpl (fs : HookFs) (ino : Nat) (mode uid gid : Option Nat)
    (size : Option Nat) (atime mtime : Option Timespec) (fh : Option Nat)
    (crtime chgtime bkuptime : Option Timespec) (flags : Option Nat) :
    HookFs × FsReply AttrOut :=
  (fs, FsReply.error ENOSYS)

def readlinkImpl (fs : HookFs) (ino : Nat) : HookFs × FsReply (List Nat) :=
  (fs, FsReply.error ENOSYS)

def mknodImpl (fs : HookFs) (parent : Nat) (name : String) (mode : Nat)
    (rdev : Nat) : HookFs × FsReply EntryOut :=
  (fs, FsReply.error ENOSYS)

def mkdirImpl (fs : HookFs) (parent : Nat) (name : String) (mode : Nat) :
    HookFs × FsReply EntryOut :=
  (fs, FsReply.error ENOSYS)

def unlinkImpl (fs : HookFs) (parent : Nat) (name : String) :
    HookFs × FsReply Unit :=
  (fs, FsReply.error ENOSYS)

def rmdirImpl (fs : HookFs) (parent : Nat) (name : String) :
    HookFs × FsReply Unit :=
  (fs, FsReply.error ENOSYS)

def symlinkImpl (fs : HookFs) (parent : Nat) (name : String) (link : Path) :
    HookFs × FsReply EntryOut :=
  (fs, FsReply.error ENOSYS)

def renameImpl (fs : HookFs) (parent : Nat) (name : String) (newparent : Nat)
    (newname : String) : HookFs × FsReply Unit :=
  (fs, FsReply.error ENOSYS)

def linkImpl (fs : HookFs) (ino : Nat) (newparent : Nat) (newname : String) :
    HookFs × FsReply EntryOut :=
  (fs, FsReply.error ENOSYS)

def writeImpl (fs : HookFs) (ino : Nat) (fh : Nat) (offset : Int)
    (data : List Nat) (flags : Nat) : HookFs × FsReply Nat :=
  (fs, FsReply.error ENOSYS)

def flushImpl (fs : HookFs) (ino : Nat) (fh : Nat) (lock_owner : Nat) :
    HookFs × FsReply Unit :=
  (fs, FsReply.error ENOSYS)

def fsyncImpl (fs : HookFs) (ino : Nat) (fh : Nat) (datasync : Bool) :
    HookFs × FsReply Unit :=
  (fs, FsReply.error ENOSYS)

def readdirImpl (fs : HookFs) (ino : Nat) (fh : Nat) (offset : Int) :
    HookFs × FsReply (List (Nat × FileType × String)) :=
  (fs, FsReply.error ENOSYS)

def fsyncdirImpl (fs : HookFs) (ino : Nat) (fh : Nat) (datasync : Bool) :
    HookFs × FsReply Unit :=
  (fs, FsReply.error ENOSYS)

def setxattrImpl (fs : HookFs) (ino : Nat) (name : String) (value : List Nat)
    (flags : Nat) (position : Nat) : HookFs × FsReply Unit :=
  (fs, FsReply.error ENOSYS)

def getxattrImpl (fs : HookFs) (ino : Nat) (name : String) (size : Nat) :
    HookFs × FsReply (List Nat) :=
  (fs, FsReply.error ENOSYS)

def listxattrImpl (fs : HookFs) (ino : Nat) (size : Nat) :
    HookFs × FsReply (List Nat) :=
  (fs, FsReply.error ENOSYS)

def removexattrImpl (fs : HookFs) (ino : Nat) (name : String) :
    HookFs × FsReply Unit :=
  (fs, FsReply.error ENOSYS)

def accessImpl (fs : HookFs) (ino : Nat) (mask : Nat) : HookFs × FsReply Unit :=
  (fs, FsReply.error ENOSYS)

def createImpl (fs : HookFs) (parent : Nat) (name : String) (mode : Nat)
    (flags : Nat) : HookFs × FsReply (EntryOut × OpenOut) :=
  (fs, FsReply.error ENOSYS)

def getlkImpl (fs : HookFs) (ino : Nat) (fh : Nat) (lock_owner : Nat)
    (start : Nat) (stop : Nat) (typ : Nat) (pid : Nat) :
    HookFs × FsReply (Nat × Nat × Nat × Nat) :=
  (fs, FsReply.error ENOSYS)

def setlkImpl (fs : HookFs) (ino : Nat) (fh : Nat) (lock_owner : Nat)
    (start : Nat) (stop : Nat) (typ : Nat) (pid : Nat) (sleep : Bool) :
    HookFs × FsReply Unit :=
  (fs, FsReply.error ENOSYS)

def bmapImpl (fs : HookFs) (ino : Nat) (blocksize : Nat) (idx : Nat) :
    HookFs × FsReply Nat :=
  (fs, FsReply.error ENOSYS)

/- The device-node bootstrap (`src/fuse_device.rs`).  The world is the state
of the `/dev/fuse` path: absent, or a node with a type, mode and device
number. -/

/-- A filesystem node at the fixed device path. -/
structure DevNode where
  kind : Nat
  mode : Nat
  rdev : Nat
deriving DecidableEq, Repr

/-- State of the fixed device path `/dev/fuse`. -/
structure DevState where
  node : Option DevNode
deriving DecidableEq, Repr

/-- `nix::sys::stat::mknod` at the fixed device path: fails with EEXIST when
the node already exists, otherwise creates it. -/
def mknodSys (w : DevState) (kind : Nat) (mode : Nat) (dev : Nat) :
    DevState × Except NixErrno Unit :=
  match w.node with
  | some _ => (w, Except.error (some EEXIST))
  | none => ({ node := some ⟨kind, mode, dev⟩ }, Except.ok ())

/-- `mkfuse_node` (fuse_device.rs:9): `mknod("/dev/fuse", S_IFCHR, 0o666, dev)`. -/
def mkfuse_node (w : DevState) (dev : Nat) : DevState × Except NixErrno Unit :=
  mknodSys w S_IFCHR 0o666 dev

/-- `read_fuse_dev_t` (fuse_device.rs:3): `stat("/dev/fuse").st_rdev`. -/
def read_fuse_dev_t (w : DevState) : Except NixErrno Nat :=
  match w.node with
  | some n => Except.ok n.rdev
  | none => Except.error (some ENOENT)

/-- Modelled from the spec: the one-time startup bootstrap is outside the
core sources (only `mkfuse_node` and `read_fuse_dev_t` are in
`src/fuse_device.rs`); the spec says it "supplies the native special
device's identifying number and, if missing, creates the device node with
correct type and 0666 permissions before mount".  So it calls
`mkfuse_node` exactly when the device node is absent. -/
def bootstrapFuseDevice (w : DevState) (dev : Nat) : DevState × Except NixErrno Unit :=
  match w.node with
  | some _ => (w, Except.ok ())
  | none => mkfuse_node w dev

/- Concrete states and oracles used by the closed theorems and witnesses. -/

/-- A freshly mounted instance: both tables empty. -/
def fsFresh : HookFs := HookFs.new ["mnt"] ["orig"]

/-- A stat oracle for a path that does not exist. -/
def statOracleEnoent : Path → Except NixErrno LibcStat :=
  fun _ => Except.error (some ENOENT)

/-- An instance with one open descriptor (fd 3, handle 0) and one known inode. -/
def fsOneFile : HookFs :=
  { mount_path := ["mnt"]
    original_path := ["orig"]
    opened_files := [3]
    inode_map := [(7, ["orig", "f"])] }

/-- Native file contents: fd 3 is a 10-byte file. -/
def contentTen : Int → List Nat :=
  fun fd => if fd == 3 then [48, 49, 50, 51, 52, 53, 54, 55, 56, 57] else []

/-- A regular file whose permission bits are all nine of `rwxrwxrwx`. -/
def statSticky : LibcStat :=
  { st_ino := 42, st_size := 0, st_blocks := 0,
    st_atime := 0, st_atime_nsec := 0, st_mtime := 0, st_mtime_nsec := 0,
    st_ctime := 0, st_ctime_nsec := 0, st_mode := 0o100777, st_nlink := 1,
    st_uid := 0, st_gid := 0, st_rdev := 0 }

/-- A concrete regular-file stat used by the lookup witness. -/
def stW : LibcStat :=
  { st_ino := 7, st_size := 10, st_blocks := 8,
    st_atime := 1, st_atime_nsec := 2, st_mtime := 3, st_mtime_nsec := 4,
    st_ctime := 5, st_ctime_nsec := 6, st_mode := 0o100644, st_nlink := 1,
    st_uid := 1000, st_gid := 1000, st_rdev := 0 }

/-- The attribute record the translator produces for `stW`. -/
def attrW : FileAttr :=
  { ino := 7, size := 10, blocks := 8,
    atime := ⟨1, 2⟩, mtime := ⟨3, 4⟩, ctime := ⟨5, 6⟩,
    kind := FileType.RegularFile, perm := 256, nlink := 1,
    uid := 1000, gid := 1000, rdev := 0, crtime := ⟨0, 0⟩, flags := 0 }

/-- A stat oracle that always answers with `stW`. -/
def oracleW : Path → Except NixErrno LibcStat := fun _ => Except.ok stW

/-- An instance whose inode table knows inode 7. -/
def fsInode : HookFs := { fsFresh with inode_map := [(7, ["orig", "f"])] }

/-- A `from_bits` model that accepts every 32-bit flag combination. -/
def validW : Nat → Bool := fun n => n < 2 ^ 32

/-- An open oracle that always yields fd 3. -/
def openOracleW : Path → Nat → Except NixErrno Int := fun _ _ => Except.ok 3

/-- The device path already holding a correct node with device number 5. -/
def devCorrect : DevState := ⟨some ⟨S_IFCHR, 0o666, 5⟩⟩

/- Helper lemmas. -/

/-- Bit 10 (`O_APPEND`) is cleared by the open-flag sanitisation. -/
theorem filterFlags_testBit_ten (flags : Nat) : (filterFlags flags).testBit 10 = false := by
  simp only [filterFlags, Nat.testBit_land]
  have h : (u32mask ^^^ O_APPEND).testBit 10 = false := by decide
  simp [h]

/-- Bit 15 (`0x8000`) is cleared by the open-flag sanitisation. -/
theorem filterFlags_testBit_fifteen (flags : Nat) : (filterFlags flags).testBit 15 = false := by
  simp only [filterFlags, Nat.testBit_land]
  have h : (u32mask ^^^ (0x8000 : Nat)).testBit 15 = false := by decide
  simp [h]

/- Claim theorems. -/

/-- C1: `getattr` on an inode never produced by `lookup` does not fail with a
defined "unknown inode" error: the source indexes the inode table directly
and panics, modelled here as `none` (no reply at all) on a fresh instance. -/
theorem getattr_unknown_inode_crashes :
    getattrImpl fsFresh statOracleEnoent tsZero 1 = none := rfl

/-- C2: `read` with a handle outside the open-file table does not fail with a
defined "invalid handle" error: the source indexes `opened_files` unchecked
and panics, modelled as `none` on a fresh instance with handle 0. -/
theorem read_invalid_handle_crashes :
    readImpl fsFresh (fun _ => []) 1 0 0 4096 = none := rfl

/-- C3: `read(handle, 0, 20)` on a 10-byte file does not reply with only the
10 bytes read: the source ignores the count returned by the native read and
replies the whole zero-initialised buffer, so the reply is the 10 file bytes
followed by 10 zero bytes (20 bytes in total), and a read at end-of-file
replies `size` zero bytes instead of zero bytes. -/
theorem read_reply_zero_padded :
    readImpl fsOneFile contentTen 7 0 0 20 =
      some (fsOneFile,
        FsReply.ok ([48, 49, 50, 51, 52, 53, 54, 55, 56, 57] ++ List.replicate 10 0)) ∧
    ([48, 49, 50, 51, 52, 53, 54, 55, 56, 57] ++ List.replicate 10 0 : List Nat).length = 20 ∧
    readImpl fsOneFile contentTen 7 0 10 5 = some (fsOneFile, FsReply.ok (List.replicate 5 0)) := by
  refine ⟨by decide, by decide, by decide⟩

/-- C4: a successful lookup of a supported-type file registers the
inode-to-path mapping (so the replied inode has a table entry in the
post-state) and replies with generation number zero; a lookup of an
unsupported file type replies the unsupported-file-type error (the source's
`-1` sentinel) and leaves the state unchanged. -/
theorem lookup_registers_inode_before_reply (fs : HookFs)
    (oracle : Path → Except NixErrno LibcStat) (time : Timespec) (parent : Nat)
    (name : String) (st : LibcStat) (attr : FileAttr) :
    (oracle (fs.original_path ++ [name]) = Except.ok st →
      convert_libc_stat_to_fuse_stat st = some attr →
        lookupImpl fs oracle time parent name =
          ({ fs with inode_map := insertAssoc fs.inode_map attr.ino (fs.original_path ++ [name]) },
            FsReply.ok (time, attr, 0)) ∧
        lookupAssoc (lookupImpl fs oracle time parent name).1.inode_map attr.ino =
          some (fs.original_path ++ [name])) ∧
    (oracle (fs.original_path ++ [name]) = Except.ok st →
      convert_libc_stat_to_fuse_stat st = none →
        lookupImpl fs oracle time parent name = (fs, FsReply.error (-1))) := by
  constructor
  · intro hstat hconv
    constructor
    · simp [lookupImpl, hstat, hconv]
    · simp [lookupImpl, hstat, hconv, lookupAssoc, insertAssoc]
  · intro hstat hconv
    simp [lookupImpl, hstat, hconv]

/-- C4 witness: on a fresh instance, looking up a regular file through a
concrete stat oracle registers inode 7 and replies its record with
generation zero. -/
theorem lookup_registers_witness :
    oracleW (fsFresh.original_path ++ ["f"]) = Except.ok stW ∧
    convert_libc_stat_to_fuse_stat stW = some attrW ∧
    lookupImpl fsFresh oracleW tsZero 1 "f" =
      ({ fsFresh with
          inode_map := insertAssoc fsFresh.inode_map attrW.ino (fsFresh.original_path ++ ["f"]) },
        FsReply.ok (tsZero, attrW, 0)) :=
  ⟨rfl, by decide,
    ((lookup_registers_inode_before_reply fsFresh oracleW tsZero 1 "f" stW attrW).1
      rfl (by decide)).1⟩

/-- C5: the attribute translator does not mask the permission bits to the low
nine bits: the Rust mask literal `0777` is decimal 777, so a regular file
with permission bits `0o777` (low nine bits 511) is translated with
`perm = 265`, not 511. -/
theorem convert_perm_mask_decimal :
    (convert_libc_stat_to_fuse_stat statSticky).map FileAttr.perm = some 265 ∧
    statSticky.st_mode % 2 ^ 9 = 511 := ⟨rfl, rfl⟩

/-- C6: every deliberately unimplemented handler replies the
operation-not-supported error (ENOSYS) and leaves the state unchanged, for
all argument values. -/
theorem unimplemented_ops_reply_enosys (fs : HookFs)
    (ino parent newparent fh lock_owner start stop typ pid blocksize idx : Nat)
    (rdev modeN maskN flagsN sizeN position : Nat) (offset : Int)
    (name newname : String) (link : Path) (data : List Nat)
    (modeO uidO gidO szO fhO flO : Option Nat)
    (atO mtO crO chO bkO : Option Timespec) (datasync sleepB : Bool) :
    setattrImpl fs ino modeO uidO gidO szO atO mtO fhO crO chO bkO flO =
      (fs, FsReply.error ENOSYS) ∧
    readlinkImpl fs ino = (fs, FsReply.error ENOSYS) ∧
    mknodImpl fs parent name modeN rdev = (fs, FsReply.error ENOSYS) ∧
    mkdirImpl fs parent name modeN = (fs, FsReply.error ENOSYS) ∧
    unlinkImpl fs parent name = (fs, FsReply.error ENOSYS) ∧
    rmdirImpl fs parent name = (fs, FsReply.error ENOSYS) ∧
    symlinkImpl fs parent name link = (fs, FsReply.error ENOSYS) ∧
    renameImpl fs parent name newparent newname = (fs, FsReply.error ENOSYS) ∧
    linkImpl fs ino newparent newname = (fs, FsReply.error ENOSYS) ∧
    writeImpl fs ino fh offset data flagsN = (fs, FsReply.error ENOSYS) ∧
    flushImpl fs ino fh lock_owner = (fs, FsReply.error ENOSYS) ∧
    fsyncImpl fs ino fh datasync = (fs, FsReply.error ENOSYS) ∧
    readdirImpl fs ino fh offset = (fs, FsReply.error ENOSYS) ∧
    fsyncdirImpl fs ino fh datasync = (fs, FsReply.error ENOSYS) ∧
    setxattrImpl fs ino name data flagsN position = (fs, FsReply.error ENOSYS) ∧
    getxattrImpl fs ino name sizeN = (fs, FsReply.error ENOSYS) ∧
    listxattrImpl fs ino sizeN = (fs, FsReply.error ENOSYS) ∧
    removexattrImpl fs ino name = (fs, FsReply.error ENOSYS) ∧
    accessImpl fs ino maskN = (fs, FsReply.error ENOSYS) ∧
    createImpl fs parent name modeN flagsN = (fs, FsReply.error ENOSYS) ∧
    getlkImpl fs ino fh lock_owner start stop typ pid = (fs, FsReply.error ENOSYS) ∧
    setlkImpl fs ino fh lock_owner start stop typ pid sleepB = (fs, FsReply.error ENOSYS) ∧
    bmapImpl fs ino blocksize idx = (fs, FsReply.error ENOSYS) :=
  ⟨rfl, rfl, rfl, rfl, rfl, rfl, rfl, rfl, rfl, rfl, rfl, rfl,
    rfl, rfl, rfl, rfl, rfl, rfl, rfl, rfl, rfl, rfl, rfl⟩

/-- C7: `open` clears the append flag and the reserved bit `0x8000` before
the native open; an unrepresentable flag combination replies the invalid-flag
error (the source's `-1` sentinel); a successful native open appends the
descriptor to the open-file table and replies its index as the handle
together with the caller's original, unfiltered flags. -/
theorem open_filters_flags_and_appends (fs : HookFs) (valid : Nat → Bool)
    (oracle : Path → Nat → Except NixErrno Int) (ino flags : Nat)
    (path : Path) (fd : Int) :
    filterFlags flags &&& O_APPEND = 0 ∧
    filterFlags flags &&& 0x8000 = 0 ∧
    (valid (filterFlags flags) = false →
      openImpl fs valid oracle ino flags = (fs, FsReply.error (-1))) ∧
    (valid (filterFlags flags) = true →
      lookupAssoc fs.inode_map ino = some path →
      oracle path (filterFlags flags) = Except.ok fd →
      openImpl fs valid oracle ino flags =
        ({ fs with opened_files := fs.opened_files ++ [fd] },
          FsReply.ok (fs.opened_files.length, flags))) := by
  refine ⟨?_, ?_, ?_, ?_⟩
  · rw [show O_APPEND = 2 ^ 10 from rfl, Nat.and_two_pow, filterFlags_testBit_ten]
    rfl
  · rw [show (0x8000 : Nat) = 2 ^ 15 from rfl, Nat.and_two_pow, filterFlags_testBit_fifteen]
    rfl
  · intro hv
    simp [openImpl, hv]
  · intro hv hlook hopen
    simp [openImpl, hv, hlook, hopen]

/-- C7 witness: opening inode 7 with flags `0x8000 | O_APPEND | 1` gives
filtered flags 1, appends fd 3 and replies handle 0 with the original flags. -/
theorem open_filters_witness :
    validW (filterFlags 33793) = true ∧
    lookupAssoc fsInode.inode_map 7 = some ["orig", "f"] ∧
    openOracleW ["orig", "f"] (filterFlags 33793) = Except.ok 3 ∧
    openImpl fsInode validW openOracleW 7 33793 =
      ({ fsInode with opened_files := [3] }, FsReply.ok (0, 33793)) := by
  refine ⟨by decide, by decide, rfl, ?_⟩
  have h :=
    (open_filters_flags_and_appends fsInode validW openOracleW 7 33793 ["orig", "f"] 3).2.2.2
      (by decide) (by decide) rfl
  exact h

/-- C8: `release` replies success for every handle, valid or not, is
idempotent, and leaves both tables unchanged. -/
theorem release_always_succeeds_idempotent (fs : HookFs)
    (ino fh flags lock_owner : Nat) (flush : Bool) :
    releaseImpl fs ino fh flags lock_owner flush = (fs, FsReply.ok ()) ∧
    releaseImpl (releaseImpl fs ino fh flags lock_owner flush).1 ino fh flags lock_owner flush =
      releaseImpl fs ino fh flags lock_owner flush := ⟨rfl, rfl⟩

/-- C9: bootstrap with device number `dev` against an absent node creates a
character-special node with mode 0666 and that number, and bootstrap against
an already-correct existing node succeeds without change. -/
theorem fuse_bootstrap_creates_chr_0666 (w : DevState) (dev : Nat) :
    bootstrapFuseDevice ⟨none⟩ dev =
      (⟨some ⟨S_IFCHR, 0o666, dev⟩⟩, Except.ok ()) ∧
    (w.node = some ⟨S_IFCHR, 0o666, dev⟩ →
      bootstrapFuseDevice w dev = (w, Except.ok ())) := by
  constructor
  · rfl
  · intro h
    unfold bootstrapFuseDevice
    rw [h]

/-- C9 witness: repeating bootstrap with device number 5 against the
already-correct node succeeds and changes nothing. -/
theorem fuse_bootstrap_witness :
    devCorrect.node = some ⟨S_IFCHR, 0o666, 5⟩ ∧
    bootstrapFuseDevice devCorrect 5 = (devCorrect, Except.ok ()) :=
  ⟨rfl, (fuse_bootstrap_creates_chr_0666 devCorrect 5).2 rfl⟩

/-- C10: `read` ignores its inode argument: two invocations differing only in
the supplied inode number produce identical results on any state. -/
theorem read_ignores_inode (fs : HookFs) (content : Int → List Nat)
    (ino1 ino2 fh : Nat) (offset : Int) (size : Nat) :
    readImpl fs content ino1 fh offset size =
      readImpl fs content ino2 fh offset size := rfl

end Toda
